import Mathlib

/-!
Shallow embedding of `fake_news_backend.py`: a multilingual fake-news scoring
pipeline (language detection → translation → zero-shot classification →
sentence-level highlighting).  Python floats are modelled as rationals;
the three external models (language detector, translator, zero-shot
classifier) are modelled as oracle functions passed explicitly, matching the
Hugging Face pipeline contract of one aligned `(labels, scores)` result per
input.  Strings are Lean `String`s; Python string helpers (`strip`, `lower`,
slicing, `replace`) are embedded over `List Char`.
-/

namespace FakeNews

/-- Python `float` scores are modelled as rationals. -/
abbrev Score := ℚ

/-- The dataclass `SentenceScore(sentence, true_score)`. -/
structure SentenceScore where
  sentence : String
  true_score : Score
deriving Repr, DecidableEq

/-- Python whitespace characters recognised by `str.strip()` and `\s`
(ASCII portion: space, tab, newline, carriage return, vertical tab, form feed). -/
def isPySpace (c : Char) : Bool :=
  c = ' ' || c = '\t' || c = '\n' || c = '\r' || c = '\x0b' || c = '\x0c'

/-- Python `str.strip()` on a character list: drop leading and trailing whitespace. -/
def pyStripList (l : List Char) : List Char :=
  ((l.dropWhile isPySpace).reverse.dropWhile isPySpace).reverse

/-- Python `str.strip()`. -/
def pyStrip (s : String) : String :=
  ⟨pyStripList s.data⟩

/-- Python `str.lower()` (ASCII case mapping). -/
def pyLower (s : String) : String :=
  ⟨s.data.map Char.toLower⟩

/-- Python `str.startswith(pre)`. -/
def pyStartsWith (s pre : String) : Bool :=
  pre.data.isPrefixOf s.data

/-- The fixed special-case table of `map_langdetect_to_m2m` (Python dict,
written as an association list in source order). -/
def special_map : List (String × String) :=
  [("zh-cn", "zh"),
   ("zh-tw", "zh"),
   ("zh", "zh"),
   ("pt-br", "pt"),
   ("sr", "sr"),
   ("jw", "jv"),
   ("he", "he"),
   ("iw", "he"),
   ("id", "id"),
   ("fil", "tl"),
   ("uk", "uk"),
   ("no", "no"),
   ("nb", "no"),
   ("nn", "no")]

/-- `map_langdetect_to_m2m`: map a langdetect language code to an M2M100 code.
Empty input falls back to "en"; otherwise lower-case, look up the special-case
table, and default to the first two characters. -/
def map_langdetect_to_m2m (lang_code : String) : String :=
  if lang_code = "" then "en"
  else
    let l := pyLower lang_code
    match special_map.lookup l with
    | some v => v
    | none => l.take 2

/-- CJK sentence terminators `。！？` (the group of the first regex). -/
def isCJKTerm (c : Char) : Bool :=
  c = '。' || c = '！' || c = '？'

/-- Any sentence terminator in the lookbehind class `[.!?。！？]`. -/
def isTerm (c : Char) : Bool :=
  c = '.' || c = '!' || c = '?' || isCJKTerm c

/-- `re.sub(r"([。！？])", r"\1 ", text)`: insert a space after each CJK terminator. -/
def addSpaceAfterCJK (l : List Char) : List Char :=
  l.flatMap (fun c => if isCJKTerm c then [c, ' '] else [c])

/-- One scan step of `re.split(r"(?<=[\.!?。！？])\s+", ·)`, structurally recursive
on a fuel bound: split on maximal whitespace runs whose immediately preceding
character is a terminator; the terminator stays attached to the preceding
fragment.  `acc` holds the current fragment reversed, so its head is the
character just before the cursor.  Every step consumes at least one input
character, so fuel = input length never runs out; the fuel-exhausted branch is
unreachable. -/
def splitAfterTermAux : ℕ → List Char → List Char → List (List Char)
  | _, [], acc => [acc.reverse]
  | 0, l, acc => [acc.reverse ++ l]
  | fuel + 1, c :: rest, acc =>
    if isPySpace c && (match acc with | p :: _ => isTerm p | [] => false) then
      acc.reverse :: splitAfterTermAux fuel (rest.dropWhile isPySpace) []
    else
      splitAfterTermAux fuel rest (c :: acc)

/-- `re.split(r"(?<=[\.!?。！？])\s+", ·)` with the fragment accumulator. -/
def splitAfterTerm (l : List Char) (acc : List Char) : List (List Char) :=
  splitAfterTermAux l.length l acc

/-- `FakeNewsService.split_into_sentences`. -/
def split_into_sentences (text : String) : List String :=
  if pyStrip text = "" then []
  else
    let t := pyStripList (addSpaceAfterCJK text.data)
    let parts := splitAfterTerm t []
    ((parts.map pyStripList).filter (fun l => l ≠ [])).map (fun l => (⟨l⟩ : String))

/-- The zero-shot classifier oracle: for one input text, the aligned
`(labels, scores)` response, as a list of label/score pairs. -/
abbrev ClsOracle := String → List (String × Score)

/-- The Hugging Face pipeline applied to a batch: one aligned response per input. -/
def zero_shot (oracle : ClsOracle) (batch : List String) : List (List (String × Score)) :=
  batch.map oracle

/-- `{l.lower(): s for l, s in zip(labels, scores)}.get(key, default)`:
a Python dict comprehension lets later keys overwrite earlier ones, so the
last matching lower-cased label wins. -/
def labelGet (pairs : List (String × Score)) (key : String) (default : Score) : Score :=
  match ((pairs.map (fun p => (pyLower p.1, p.2))).reverse).lookup key with
  | some v => v
  | none => default

/-- `FakeNewsService.classify_truth_score`: 0.5 on blank text, otherwise the
score that the classifier reports for label "true", defaulting to 0.0 when absent. -/
def classify_truth_score (oracle : ClsOracle) (text : String) : Score :=
  if pyStrip text = "" then 1/2
  else labelGet (oracle text) "true" 0

/-- `FakeNewsService.classify_sentences` (Python default `max_sentences = 40`).
Only the first `max_sentences` sentences go to the classifier in one batched
call; the rest are marked neutral 0.5. -/
def classify_sentences (oracle : ClsOracle) (sentences : List String)
    (max_sentences : ℕ) : List SentenceScore :=
  if sentences = [] then []
  else
    let limited := sentences.take max_sentences
    let results := zero_shot oracle limited
    let scores := (limited.zip results).map
      (fun p => SentenceScore.mk p.1 (labelGet p.2 "true" 0))
    scores ++ (sentences.drop limited.length).map (fun s => SentenceScore.mk s (1/2))

/-- `FakeNewsService.verdict_from_score`: return (label, color_hex). -/
def verdict_from_score (true_score : Score) : String × String :=
  if true_score ≥ 0.6 then ("Likely True", "#16a34a")
  else if true_score ≤ 0.4 then ("Likely False", "#dc2626")
  else ("Uncertain", "#d97706")

/-- `FakeNewsService.sentence_bg_color`: discrete threshold buckets, checked in
source order. -/
def sentence_bg_color (true_score : Score) : String :=
  if true_score ≥ 0.7 then "#bbf7d0"
  else if true_score ≥ 0.6 then "#dcfce7"
  else if true_score ≤ 0.3 then "#fecaca"
  else if true_score ≤ 0.4 then "#fee2e2"
  else "#fef9c3"

/-- Replace every occurrence of the character `c` by `rep` (Python
`str.replace` with a one-character pattern). -/
def replaceChar (c : Char) (rep : List Char) (l : List Char) : List Char :=
  l.flatMap (fun x => if x = c then rep else [x])

/-- `FakeNewsService._escape_html`: sequentially replace `&`, then `<`, then `>`. -/
def _escape_html (text : String) : String :=
  ⟨replaceChar '>' "&gt;".data
    (replaceChar '<' "&lt;".data
      (replaceChar '&' "&amp;".data text.data))⟩

/-- Python 3 `round` to an integer: round half to even. -/
def pyRound (q : ℚ) : ℤ :=
  if q - (⌊q⌋ : ℚ) = 1/2 then (if ⌊q⌋ % 2 = 0 then ⌊q⌋ else ⌊q⌋ + 1)
  else round q

/-- `FakeNewsService.build_highlighted_html`. -/
def build_highlighted_html (sentence_scores : List SentenceScore) : String :=
  let spans := sentence_scores.map (fun s =>
    let color := sentence_bg_color s.true_score
    let conf := pyRound (s.true_score * 100)
    "<span style=\"background:" ++ color ++
      "; padding:2px 4px; border-radius:4px; margin-right:2px; display:inline;\">" ++
      _escape_html s.sentence ++ " <small style=\x27opacity:0.7\x27>(true " ++
      toString conf ++ "%)</small></span>")
  "<div style=\x27line-height:1.9\x27>" ++ String.intercalate " " spans ++ "</div>"

/-- The language detector oracle: `none` models a raised exception. -/
abbrev DetOracle := String → Option String

/-- `FakeNewsService.detect_language`: any detector failure falls back to "en". -/
def detect_language (oracle : DetOracle) (text : String) : String :=
  (oracle text).getD "en"

/-- The translation model oracle: given the M2M source-language code and the
text, the decoded English output. -/
abbrev TransOracle := String → String → String

/-- `FakeNewsService.translate_to_english`: blank text short-circuits to "",
English input is returned unchanged, otherwise the external model runs with
the mapped source-language code. -/
def translate_to_english (oracle : TransOracle) (text : String) (src_lang : String) : String :=
  if pyStrip text = "" then ""
  else if pyStartsWith src_lang "en" then text
  else oracle (map_langdetect_to_m2m src_lang) text

/-- The record returned by `FakeNewsService.process`. -/
structure ProcessResult where
  detected_language : String
  translated_text : String
  overall_true_score : Score
  verdict_label : String
  verdict_color : String
  highlighted_html : String
  sentence_scores : List SentenceScore
deriving Repr, DecidableEq

/-- `FakeNewsService.process`.  The input is `Option String` so that Python
`None` is representable; `(article_text or "")` maps `none` to `""`. -/
def process (detO : DetOracle) (transO : TransOracle) (clsO : ClsOracle)
    (article_text : Option String) : ProcessResult :=
  let t := pyStrip (article_text.getD "")
  if t = "" then
    { detected_language := ""
      translated_text := ""
      overall_true_score := 1/2
      verdict_label := ""
      verdict_color := "#6b7280"
      highlighted_html := ""
      sentence_scores := [] }
  else
    let lang := detect_language detO t
    let translated := translate_to_english transO t lang
    let overall_score := classify_truth_score clsO translated
    let v := verdict_from_score overall_score
    let sentences := split_into_sentences translated
    let sent_scores := classify_sentences clsO sentences 40
    { detected_language := lang
      translated_text := translated
      overall_true_score := overall_score
      verdict_label := v.1
      verdict_color := v.2
      highlighted_html := build_highlighted_html sent_scores
      sentence_scores := sent_scores }

/-- Simultaneous, single-pass HTML escaping of one character (the intended
semantics, to compare with the sequential replacements of `_escape_html`). -/
def escChar (c : Char) : List Char :=
  if c = '&' then "&amp;".data
  else if c = '<' then "&lt;".data
  else if c = '>' then "&gt;".data
  else [c]

/-- Concrete language-detector oracle (always fails) for instantiating theorems. -/
def detO0 : DetOracle := fun _ => none

/-- Concrete translation oracle (prepends a marker) for instantiating theorems. -/
def transO0 : TransOracle := fun _ t => "X" ++ t

/-- Concrete classifier oracle whose responses carry no "true" label. -/
def clsO0 : ClsOracle := fun _ => [("false", 9/10)]

/-!  Helper lemmas shared between the claims. -/

theorem drop_take_length (l : List String) (n : ℕ) :
    l.drop (l.take n).length = l.drop n := by
  rw [List.length_take]
  rcases Nat.le_total n l.length with h | h
  · rw [Nat.min_eq_left h]
  · rw [Nat.min_eq_right h, List.drop_length, List.drop_eq_nil_of_le h]

theorem zip_map_self {α β γ : Type} (l : List α) (f : α → β) (g : α × β → γ) :
    (l.zip (l.map f)).map g = l.map (fun a => g (a, f a)) := by
  induction l with
  | nil => rfl
  | cons a t ih => simp [ih]

theorem lookup_eq_none_of_no_key {β : Type} (key : String) (l : List (String × β))
    (h : ∀ p ∈ l, p.1 ≠ key) : l.lookup key = none := by
  induction l with
  | nil => rfl
  | cons a t ih =>
    obtain ⟨k1, v1⟩ := a
    have hk : k1 ≠ key := h (k1, v1) (by simp)
    have ha : (key == k1) = false := beq_eq_false_iff_ne.mpr (Ne.symm hk)
    simp only [List.lookup, ha]
    exact ih (fun p hp => h p (List.mem_cons_of_mem _ hp))

theorem labelGet_of_no_label (pairs : List (String × Score)) (key : String) (d : Score)
    (h : ∀ p ∈ pairs, pyLower p.1 ≠ key) : labelGet pairs key d = d := by
  have hnone : ((pairs.map (fun p => (pyLower p.1, p.2))).reverse).lookup key = none := by
    refine lookup_eq_none_of_no_key key _ ?_
    intro q hq
    rw [List.mem_reverse] at hq
    obtain ⟨p, hp, rfl⟩ := List.mem_map.mp hq
    exact h p hp
  simp [labelGet, hnone]

theorem classify_sentences_decomp (oracle : ClsOracle) (sentences : List String) (cap : ℕ) :
    classify_sentences oracle sentences cap =
      (sentences.take cap).map (fun s => SentenceScore.mk s (labelGet (oracle s) "true" 0))
        ++ (sentences.drop cap).map (fun s => SentenceScore.mk s (1/2)) := by
  by_cases h : sentences = []
  · subst h; simp [classify_sentences]
  · simp only [classify_sentences, if_neg h, zero_shot]
    rw [zip_map_self, drop_take_length]

/-- C5: `verdict_from_score` is total and maps each score into exactly one of three
non-overlapping buckets: score ≥ 0.6 ↦ ("Likely True", green `#16a34a`),
score ≤ 0.4 ↦ ("Likely False", red `#dc2626`), and 0.4 < score < 0.6 ↦
("Uncertain", amber `#d97706`); in particular at 0.6, 0.4 and 0.5. -/
theorem C5_verdict_buckets (s : Score) :
    (0.6 ≤ s → verdict_from_score s = ("Likely True", "#16a34a"))
    ∧ (s ≤ 0.4 → verdict_from_score s = ("Likely False", "#dc2626"))
    ∧ (0.4 < s → s < 0.6 → verdict_from_score s = ("Uncertain", "#d97706"))
    ∧ verdict_from_score 0.6 = ("Likely True", "#16a34a")
    ∧ verdict_from_score 0.4 = ("Likely False", "#dc2626")
    ∧ verdict_from_score 0.5 = ("Uncertain", "#d97706") := by
  refine ⟨?_, ?_, ?_, ?_, ?_, ?_⟩
  · intro h
    simp only [verdict_from_score, ge_iff_le, if_pos h]
  · intro h
    have h6 : ¬(0.6 ≤ s) := by intro hc; norm_num at h hc; linarith
    simp only [verdict_from_score, ge_iff_le, if_neg h6, if_pos h]
  · intro h4 h6
    have h6n : ¬(0.6 ≤ s) := by intro hc; linarith
    have h4n : ¬(s ≤ 0.4) := by intro hc; linarith
    simp only [verdict_from_score, ge_iff_le, if_neg h6n, if_neg h4n]
  · norm_num [verdict_from_score]
  · norm_num [verdict_from_score]
  · norm_num [verdict_from_score]

/-- Closed witness for C5 at concrete scores 0.7, 0.3 and 0.5. -/
theorem C5_verdict_buckets_witness :
    verdict_from_score 0.7 = ("Likely True", "#16a34a")
    ∧ verdict_from_score 0.3 = ("Likely False", "#dc2626")
    ∧ verdict_from_score 0.45 = ("Uncertain", "#d97706") :=
  ⟨(C5_verdict_buckets 0.7).1 (by norm_num),
   (C5_verdict_buckets 0.3).2.1 (by norm_num),
   (C5_verdict_buckets 0.45).2.2.1 (by norm_num) (by norm_num)⟩

/-- C6: `sentence_bg_color` checks its buckets in source order — ≥ 0.7 light green
`#bbf7d0`, then ≥ 0.6 pale green `#dcfce7`, then ≤ 0.3 light red `#fecaca`, then
≤ 0.4 pale red `#fee2e2`, else pale yellow `#fef9c3` — so each score gets the
color of the first matching check; e.g. 0.65 gets pale green and the open
interval (0.4, 0.6) gets pale yellow. -/
theorem C6_bg_color_buckets (s : Score) :
    (0.7 ≤ s → sentence_bg_color s = "#bbf7d0")
    ∧ (0.6 ≤ s → s < 0.7 → sentence_bg_color s = "#dcfce7")
    ∧ (s ≤ 0.3 → sentence_bg_color s = "#fecaca")
    ∧ (0.3 < s → s ≤ 0.4 → sentence_bg_color s = "#fee2e2")
    ∧ (0.4 < s → s < 0.6 → sentence_bg_color s = "#fef9c3")
    ∧ sentence_bg_color 0.65 = "#dcfce7" := by
  refine ⟨?_, ?_, ?_, ?_, ?_, ?_⟩
  · intro h
    simp only [sentence_bg_color, ge_iff_le, if_pos h]
  · intro h6 h7
    have h7n : ¬(0.7 ≤ s) := by intro hc; linarith
    simp only [sentence_bg_color, ge_iff_le, if_neg h7n, if_pos h6]
  · intro h3
    have h7n : ¬(0.7 ≤ s) := by intro hc; norm_num at h3 hc; linarith
    have h6n : ¬(0.6 ≤ s) := by intro hc; norm_num at h3 hc; linarith
    simp only [sentence_bg_color, ge_iff_le, if_neg h7n, if_neg h6n, if_pos h3]
  · intro h3 h4
    have h7n : ¬(0.7 ≤ s) := by intro hc; norm_num at h4 hc; linarith
    have h6n : ¬(0.6 ≤ s) := by intro hc; norm_num at h4 hc; linarith
    have h3n : ¬(s ≤ 0.3) := by intro hc; linarith
    simp only [sentence_bg_color, ge_iff_le, if_neg h7n, if_neg h6n, if_neg h3n, if_pos h4]
  · intro h4 h6
    have h7n : ¬(0.7 ≤ s) := by intro hc; linarith
    have h6n : ¬(0.6 ≤ s) := by intro hc; linarith
    have h3n : ¬(s ≤ 0.3) := by intro hc; linarith
    have h4n : ¬(s ≤ 0.4) := by intro hc; linarith
    simp only [sentence_bg_color, ge_iff_le, if_neg h7n, if_neg h6n, if_neg h3n, if_neg h4n]
  · norm_num [sentence_bg_color]

/-- Closed witness for C6 at concrete scores in each bucket. -/
theorem C6_bg_color_buckets_witness :
    sentence_bg_color 0.8 = "#bbf7d0"
    ∧ sentence_bg_color 0.62 = "#dcfce7"
    ∧ sentence_bg_color 0.1 = "#fecaca"
    ∧ sentence_bg_color 0.35 = "#fee2e2"
    ∧ sentence_bg_color 0.5 = "#fef9c3" :=
  ⟨(C6_bg_color_buckets 0.8).1 (by norm_num),
   (C6_bg_color_buckets 0.62).2.1 (by norm_num) (by norm_num),
   (C6_bg_color_buckets 0.1).2.2.1 (by norm_num),
   (C6_bg_color_buckets 0.35).2.2.2.1 (by norm_num) (by norm_num),
   (C6_bg_color_buckets 0.5).2.2.2.2.1 (by norm_num) (by norm_num)⟩

/-- C7: the language-code mapper is total and pure: empty input maps to "en", a
lower-cased input found in the special-case table maps to the table value, and
every other input maps to the first two characters of its lower-cased form. -/
theorem C7_lang_mapper :
    map_langdetect_to_m2m "" = "en"
    ∧ map_langdetect_to_m2m "zh-CN" = "zh"
    ∧ map_langdetect_to_m2m "zh-cn" = "zh"
    ∧ map_langdetect_to_m2m "zh-tw" = "zh"
    ∧ map_langdetect_to_m2m "zh" = "zh"
    ∧ map_langdetect_to_m2m "jw" = "jv"
    ∧ map_langdetect_to_m2m "iw" = "he"
    ∧ map_langdetect_to_m2m "fil" = "tl"
    ∧ map_langdetect_to_m2m "no" = "no"
    ∧ map_langdetect_to_m2m "nb" = "no"
    ∧ map_langdetect_to_m2m "nn" = "no"
    ∧ map_langdetect_to_m2m "xx-YY" = "xx"
    ∧ (∀ s : String, s ≠ "" → (∀ p ∈ special_map, p.1 ≠ pyLower s) →
        map_langdetect_to_m2m s = (pyLower s).take 2) := by
  refine ⟨by decide, by decide, by decide, by decide, by decide, by decide, by decide,
    by decide, by decide, by decide, by decide, by decide, ?_⟩
  intro s hne hnk
  have hnone : special_map.lookup (pyLower s) = none :=
    lookup_eq_none_of_no_key (pyLower s) special_map hnk
  simp [map_langdetect_to_m2m, hne, hnone]

/-- Closed witness for the default rule of C7 at the unlisted code "de-AT". -/
theorem C7_lang_mapper_witness : map_langdetect_to_m2m "de-AT" = "de" :=
  (C7_lang_mapper.2.2.2.2.2.2.2.2.2.2.2.2 "de-AT" (by decide) (by decide)).trans (by decide)

/-- C2 counterexample: for the whitespace-only text " " and language code "en",
`translate_to_english` returns "" rather than the input unchanged, because the
blank-text check precedes the English check. -/
theorem C2_translate_identity_counterexample :
    pyStartsWith "en" "en" = true
    ∧ translate_to_english transO0 " " "en" = ""
    ∧ translate_to_english transO0 " " "en" ≠ " " := by decide

/-- C2 amended: for any translation oracle, `translate_to_english` returns
non-blank text unchanged (identity, no model call) whenever the language code
starts with "en", and returns "" on blank text regardless of the language code. -/
theorem C2_translate_identity_amended (oracle : TransOracle) (text src_lang : String) :
    (pyStartsWith src_lang "en" = true → pyStrip text ≠ "" →
      translate_to_english oracle text src_lang = text)
    ∧ (pyStrip text = "" → translate_to_english oracle text src_lang = "") := by
  constructor
  · intro hen h
    simp [translate_to_english, h, hen]
  · intro h
    simp [translate_to_english, h]

/-- Closed witness for C2 at concrete inputs on both branches, the blank branch
with a non-English language code. -/
theorem C2_translate_identity_amended_witness :
    translate_to_english transO0 "Hello there" "en-US" = "Hello there"
    ∧ translate_to_english transO0 " \t " "fr" = "" :=
  ⟨(C2_translate_identity_amended transO0 "Hello there" "en-US").1 (by decide) (by decide),
   (C2_translate_identity_amended transO0 " \t " "fr").2 (by decide)⟩

/-- C1 counterexample: on blank input, `process` does not leave `verdict_color`
empty — it is the neutral gray "#6b7280". -/
theorem C1_empty_process_counterexample :
    (process detO0 transO0 clsO0 (some "")).verdict_color = "#6b7280"
    ∧ "#6b7280" ≠ "" := by decide

/-- C1 amended: for every None-like, empty, or whitespace-only input and any
oracles, `process` returns the fixed empty result: overall_true_score 0.5,
detected_language, translated_text, verdict_label and highlighted_html the
empty string, sentence_scores the empty list, and verdict_color the neutral
gray "#6b7280"; the result does not depend on any collaborator oracle. -/
theorem C1_empty_process_amended (detO : DetOracle) (transO : TransOracle) (clsO : ClsOracle)
    (article_text : Option String) (h : pyStrip (article_text.getD "") = "") :
    process detO transO clsO article_text =
      { detected_language := ""
        translated_text := ""
        overall_true_score := 1/2
        verdict_label := ""
        verdict_color := "#6b7280"
        highlighted_html := ""
        sentence_scores := [] } := by
  simp [process, h]

/-- Closed witness for C1 at `None`, the empty string and a whitespace-only string. -/
theorem C1_empty_process_amended_witness :
    process detO0 transO0 clsO0 none =
      { detected_language := ""
        translated_text := ""
        overall_true_score := 1/2
        verdict_label := ""
        verdict_color := "#6b7280"
        highlighted_html := ""
        sentence_scores := [] }
    ∧ process detO0 transO0 clsO0 (some "") =
      { detected_language := ""
        translated_text := ""
        overall_true_score := 1/2
        verdict_label := ""
        verdict_color := "#6b7280"
        highlighted_html := ""
        sentence_scores := [] }
    ∧ process detO0 transO0 clsO0 (some " \t\n ") =
      { detected_language := ""
        translated_text := ""
        overall_true_score := 1/2
        verdict_label := ""
        verdict_color := "#6b7280"
        highlighted_html := ""
        sentence_scores := [] } :=
  ⟨C1_empty_process_amended detO0 transO0 clsO0 none (by decide),
   C1_empty_process_amended detO0 transO0 clsO0 (some "") (by decide),
   C1_empty_process_amended detO0 transO0 clsO0 (some " \t\n ") (by decide)⟩

/-- C3: whenever the classifier response carries no "true" label (after
lower-casing), the returned true_score is exactly 0, both in the whole-text
scorer `classify_truth_score` and for any in-cap sentence of the batched
scorer `classify_sentences`. -/
theorem C3_missing_true_label (oracle : ClsOracle) :
    (∀ text : String, pyStrip text ≠ "" → (∀ p ∈ oracle text, pyLower p.1 ≠ "true") →
      classify_truth_score oracle text = 0)
    ∧ (∀ (sentences : List String) (cap i : ℕ) (s : String), i < cap →
        sentences[i]? = some s → (∀ p ∈ oracle s, pyLower p.1 ≠ "true") →
        (classify_sentences oracle sentences cap)[i]? = some (SentenceScore.mk s 0)) := by
  constructor
  · intro text ht hno
    simp [classify_truth_score, ht, labelGet_of_no_label _ _ _ hno]
  · intro sentences cap i s hic hget hno
    obtain ⟨hilen, hgeti⟩ := List.getElem?_eq_some.mp hget
    rw [classify_sentences_decomp]
    rw [List.getElem?_append_left (by simpa [List.length_take] using ⟨hic, hilen⟩),
      List.getElem?_map, List.getElem?_take_of_lt hic, hget]
    simp [labelGet_of_no_label _ _ _ hno]

/-- Closed witness for C3: a classifier response with only a "false" label yields
true_score 0 in both scorers. -/
theorem C3_missing_true_label_witness :
    classify_truth_score clsO0 "hello" = 0
    ∧ (classify_sentences clsO0 ["hello"] 40)[0]? = some (SentenceScore.mk "hello" 0) :=
  ⟨(C3_missing_true_label clsO0).1 "hello" (by decide) (by decide),
   (C3_missing_true_label clsO0).2 ["hello"] 40 0 "hello" (by decide) (by decide) (by decide)⟩

/-- C4: `classify_sentences` sends exactly the first `cap` sentences, in order,
to the single batched classifier call (a batch of length ≤ cap); every sentence
from index `cap` on gets true_score 0.5 with a score that does not depend on the
classifier oracle; and the empty input yields the empty output. -/
theorem C4_sentence_cap (oracle : ClsOracle) (sentences : List String) (cap : ℕ) :
    (sentences.take cap).length ≤ cap
    ∧ classify_sentences oracle sentences cap =
        (sentences.take cap).map (fun s => SentenceScore.mk s (labelGet (oracle s) "true" 0))
          ++ (sentences.drop cap).map (fun s => SentenceScore.mk s (1/2))
    ∧ classify_sentences oracle [] cap = [] :=
  ⟨by rw [List.length_take]; exact Nat.min_le_left _ _,
   classify_sentences_decomp oracle sentences cap,
   by simp [classify_sentences]⟩

/-- C10: for every classifier oracle, `classify_sentences` returns exactly one
`SentenceScore` per input sentence, and the sentence fields reproduce the input
list in order (below and above the cap). -/
theorem C10_sentences_preserved (oracle : ClsOracle) (sentences : List String) (cap : ℕ) :
    (classify_sentences oracle sentences cap).length = sentences.length
    ∧ (classify_sentences oracle sentences cap).map SentenceScore.sentence = sentences := by
  rw [classify_sentences_decomp]
  constructor
  · rw [List.length_append, List.length_map, List.length_map, List.length_take,
      List.length_drop]
    omega
  · rw [List.map_append, List.map_map, List.map_map]
    simp only [Function.comp_def]
    simp [List.take_append_drop]

/-- Sequential replacement of `&`, `<`, `>` coincides with the simultaneous
per-character substitution `escChar`. -/
theorem escape_seq_eq_flatMap (l : List Char) :
    replaceChar '>' "&gt;".data (replaceChar '<' "&lt;".data
      (replaceChar '&' "&amp;".data l)) = l.flatMap escChar := by
  induction l with
  | nil => rfl
  | cons a t ih =>
    have key : replaceChar '>' "&gt;".data (replaceChar '<' "&lt;".data
        (if a = '&' then "&amp;".data else [a])) = escChar a := by
      by_cases h1 : a = '&'
      · subst h1; decide
      · by_cases h2 : a = '<'
        · subst h2; decide
        · by_cases h3 : a = '>'
          · subst h3; decide
          · simp [replaceChar, escChar, h1, h2, h3]
    calc replaceChar '>' "&gt;".data (replaceChar '<' "&lt;".data
          (replaceChar '&' "&amp;".data (a :: t)))
        = replaceChar '>' "&gt;".data (replaceChar '<' "&lt;".data
            ((if a = '&' then "&amp;".data else [a]) ++ replaceChar '&' "&amp;".data t)) := by
          simp [replaceChar]
      _ = replaceChar '>' "&gt;".data (replaceChar '<' "&lt;".data
            (if a = '&' then "&amp;".data else [a]))
          ++ replaceChar '>' "&gt;".data (replaceChar '<' "&lt;".data
            (replaceChar '&' "&amp;".data t)) := by
          simp [replaceChar]
      _ = escChar a ++ t.flatMap escChar := by rw [key, ih]
      _ = (a :: t).flatMap escChar := by rw [List.flatMap_cons]

/-- C9: `_escape_html` replaces exactly the characters `&`, `<`, `>` by their
entities, `&` first, so it coincides with the simultaneous per-character
substitution (no double-escaping); strings without those characters pass through
unchanged; and escaping "<b>&1</b>" yields "&lt;b&gt;&amp;1&lt;/b&gt;". -/
theorem C9_escape_html :
    _escape_html "<b>&1</b>" = "&lt;b&gt;&amp;1&lt;/b&gt;"
    ∧ (∀ s : String, _escape_html s = ⟨s.data.flatMap escChar⟩)
    ∧ (∀ s : String, (∀ c ∈ s.data, c ≠ '&' ∧ c ≠ '<' ∧ c ≠ '>') → _escape_html s = s) := by
  have heq : ∀ s : String, _escape_html s = ⟨s.data.flatMap escChar⟩ := by
    intro s
    unfold _escape_html
    exact congrArg String.mk (escape_seq_eq_flatMap s.data)
  refine ⟨by decide, heq, ?_⟩
  intro s h
  have hid : ∀ l : List Char, (∀ c ∈ l, c ≠ '&' ∧ c ≠ '<' ∧ c ≠ '>') →
      l.flatMap escChar = l := by
    intro l
    induction l with
    | nil => intro _; rfl
    | cons a t ih =>
      intro h2
      have ha := h2 a (List.mem_cons_self a t)
      rw [List.flatMap_cons, ih (fun c hc => h2 c (List.mem_cons_of_mem _ hc))]
      simp [escChar, ha.1, ha.2.1, ha.2.2]
  rw [heq, hid s.data h]

/-- Closed witness for C9: a string without `&`, `<`, `>` is unchanged. -/
theorem C9_escape_html_witness : _escape_html "abc" = "abc" :=
  C9_escape_html.2.2 "abc" (by decide)

theorem dropWhile_head_false (p : Char → Bool) :
    ∀ (l : List Char) (a : Char) (t : List Char), l.dropWhile p = a :: t → p a = false := by
  intro l
  induction l with
  | nil => intro a t h; exact absurd h (by simp)
  | cons b l ih =>
    intro a t h
    cases hb : p b with
    | true =>
      rw [List.dropWhile_cons_of_pos hb] at h
      exact ih a t h
    | false =>
      rw [List.dropWhile_cons_of_neg (by simp [hb])] at h
      injection h with h1 h2
      subst h1
      exact hb

theorem dropWhile_eq_self_of_head_false (p : Char → Bool) (l : List Char)
    (h : ∀ a t, l = a :: t → p a = false) : l.dropWhile p = l := by
  cases l with
  | nil => rfl
  | cons b t => exact List.dropWhile_cons_of_neg (by simp [h b t rfl])

theorem pyStripList_idem (l : List Char) : pyStripList (pyStripList l) = pyStripList l := by
  have hA : (pyStripList l).dropWhile isPySpace = pyStripList l := by
    apply dropWhile_eq_self_of_head_false
    intro a t h
    obtain ⟨u, hu⟩ := List.dropWhile_suffix (l := (l.dropWhile isPySpace).reverse) isPySpace
    have hk : l.dropWhile isPySpace =
        pyStripList l ++ u.reverse := by
      have h2 := congrArg List.reverse hu
      simpa [pyStripList, List.reverse_append] using h2.symm
    rw [h] at hk
    exact dropWhile_head_false isPySpace l a (t ++ u.reverse) (by rw [hk]; simp)
  have hB : ((l.dropWhile isPySpace).reverse.dropWhile isPySpace).dropWhile isPySpace
      = (l.dropWhile isPySpace).reverse.dropWhile isPySpace := by
    apply dropWhile_eq_self_of_head_false
    intro a t h
    exact dropWhile_head_false isPySpace (l.dropWhile isPySpace).reverse a t h
  have step1 : pyStripList (pyStripList l)
      = (((pyStripList l).dropWhile isPySpace).reverse.dropWhile isPySpace).reverse := rfl
  rw [step1, hA]
  have step2 : (pyStripList l).reverse
      = (l.dropWhile isPySpace).reverse.dropWhile isPySpace := by
    simp [pyStripList]
  rw [step2, hB]
  simp [pyStripList]

/-- C8: `split_into_sentences` inserts a space after each CJK terminator, then
splits on whitespace runs immediately following a terminator (terminator kept
attached), trims each fragment and drops empty fragments; blank input yields
the empty list, and the worked examples hold. -/
theorem C8_split_into_sentences :
    split_into_sentences "" = []
    ∧ (∀ t : String, pyStrip t = "" → split_into_sentences t = [])
    ∧ split_into_sentences "Hello world. This is great!" = ["Hello world.", "This is great!"]
    ∧ split_into_sentences "你好。世界！很好" = ["你好。", "世界！", "很好"]
    ∧ (∀ t : String, ∀ s ∈ split_into_sentences t, s ≠ "" ∧ pyStrip s = s) := by
  refine ⟨by decide, ?_, by decide, by decide, ?_⟩
  · intro t h
    simp [split_into_sentences, h]
  · intro t s hs
    by_cases h0 : pyStrip t = ""
    · simp [split_into_sentences, h0] at hs
    · simp only [split_into_sentences, h0, if_false] at hs
      obtain ⟨l, hl, rfl⟩ := List.mem_map.mp hs
      obtain ⟨hl2, hlne⟩ := List.mem_filter.mp hl
      obtain ⟨m, hm, rfl⟩ := List.mem_map.mp hl2
      have hne : pyStripList m ≠ [] := by simpa using hlne
      refine ⟨?_, ?_⟩
      · intro he
        exact hne (congrArg String.data he)
      · show pyStrip ⟨pyStripList m⟩ = ⟨pyStripList m⟩
        show (⟨pyStripList (pyStripList m)⟩ : String) = ⟨pyStripList m⟩
        exact congrArg String.mk (pyStripList_idem m)

/-- Closed witness for C8: the blank rule at a whitespace-only string and the
trimmed/non-empty guarantee at a concrete fragment of the worked example. -/
theorem C8_split_into_sentences_witness :
    split_into_sentences "  \t " = []
    ∧ ("Hello world." ≠ "" ∧ pyStrip "Hello world." = "Hello world.") :=
  ⟨C8_split_into_sentences.2.1 "  \t " (by decide),
   C8_split_into_sentences.2.2.2.2 "Hello world. This is great!" "Hello world." (by decide)⟩

end FakeNews
